import Mathlib

/-!
Verification development for the Vigilis real-time tracking core.

The movement simulator is embedded from
`frontend/vigilis/app/components/map/EmbeddedMap.tsx` (`animateOfficers`,
`easeInOutCubic`, `fetchPatrolRoute`). Coordinates are pairs `(lng, lat)`
of real numbers, mirroring the `[number, number]` tuples of the source.
-/

namespace Vigilis

/-- Embeds `easeInOutCubic` from EmbeddedMap.tsx:
`t < 0.5 ? 4 * t * t * t : 1 - Math.pow(-2 * t + 2, 3) / 2`. -/
noncomputable def easeInOutCubic (t : ℝ) : ℝ :=
  if t < 1 / 2 then 4 * t * t * t else 1 - (-2 * t + 2) ^ 3 / 2

/-- Mathematical model of JavaScript `Math.atan2 y x` on finite inputs:
the angle of the vector `(x, y)` in `(-pi, pi]`. -/
noncomputable def atan2 (y x : ℝ) : ℝ :=
  if 0 < x then Real.arctan (y / x)
  else if x < 0 then
    if 0 ≤ y then Real.arctan (y / x) + Real.pi
    else Real.arctan (y / x) - Real.pi
  else
    if 0 < y then Real.pi / 2
    else if y < 0 then -(Real.pi / 2)
    else 0

/-- Embeds the per-officer animation state stored in the `officerData` map of
`addPoliceOfficers` in EmbeddedMap.tsx. Times are in milliseconds, as
`Date.now()` values. `waitingUntil = none` embeds the JavaScript `null`. -/
structure OfficerData where
  current : ℝ × ℝ
  route : List (ℝ × ℝ)
  routeIndex : ℕ
  heading : ℝ
  waitingUntil : Option ℝ
  segmentProgress : ℝ
  segmentStartTime : ℝ

/-- Active waypoint of the route: `data.route[data.routeIndex]`. -/
def targetOf (d : OfficerData) : ℝ × ℝ := d.route.getD d.routeIndex (0, 0)

/-- Longitude offset toward the active waypoint:
`dx = targetPoint[0] - data.current[0]`. -/
def dxOf (d : OfficerData) : ℝ := (targetOf d).1 - d.current.1

/-- Latitude offset toward the active waypoint:
`dy = targetPoint[1] - data.current[1]`. -/
def dyOf (d : OfficerData) : ℝ := (targetOf d).2 - d.current.2

/-- Straight-line distance to the active waypoint:
`distance = Math.sqrt(dx * dx + dy * dy)`. -/
noncomputable def distToTarget (d : OfficerData) : ℝ :=
  Real.sqrt (dxOf d * dxOf d + dyOf d * dyOf d)

/-- Speed multiplier applied while moving:
`1 + Math.sin(easedProgress * Math.PI) * 2`. -/
noncomputable def speedMultiplier (easedProgress : ℝ) : ℝ :=
  1 + Real.sin (easedProgress * Real.pi) * 2

/-- Embeds the "Move along the route" part of `animateOfficers`
(EmbeddedMap.tsx lines 654-694), reached when the officer has a route and is
not waiting. `rand` stands for the `Math.random()` sample drawn when a
waypoint is reached; it lies in `[0, 1)`. -/
noncomputable def moveStep (now rand : ℝ) (d : OfficerData) : OfficerData :=
  let dx := dxOf d
  let dy := dyOf d
  let distance := Real.sqrt (dx * dx + dy * dy)
  if 0.000005 < distance then
    let baseSpeed : ℝ := 0.0000015
    let elapsed := now - d.segmentStartTime
    let estimatedDuration : ℝ := 15000
    let progress := min (elapsed / estimatedDuration) 1
    let easedProgress := easeInOutCubic progress
    let adjustedSpeed := baseSpeed * speedMultiplier easedProgress
    let ratio := min (adjustedSpeed / distance) 1
    { d with
      current := (d.current.1 + dx * ratio, d.current.2 + dy * ratio)
      heading := atan2 dy dx * 180 / Real.pi
      segmentProgress := progress }
  else
    { d with
      waitingUntil := some (now + 2000 + rand * 1000)
      routeIndex :=
        if d.route.length ≤ d.routeIndex + 1 then 0 else d.routeIndex + 1 }

/-- Embeds one animation tick for one officer (the body of the `.map` in
`animateOfficers`, EmbeddedMap.tsx lines 607-709): no route means stay put;
a pending wait either freezes the officer or, once expired, is cleared with
segment progress reset before the moving logic runs. The emitted GeoJSON
feature carries the post-tick `current` and `heading`. -/
noncomputable def animateTick (now rand : ℝ) (d : OfficerData) : OfficerData :=
  if d.route = [] then d
  else
    match d.waitingUntil with
    | some w =>
      if now < w then d
      else
        moveStep now rand
          { d with waitingUntil := none, segmentProgress := 0,
                   segmentStartTime := now }
    | none => moveStep now rand d

/-- Runs `animateTick` over a list of `(now, rand)` frames, oldest first. -/
noncomputable def runTicks : List (ℝ × ℝ) → OfficerData → OfficerData
  | [], d => d
  | f :: fs, d => runTicks fs (animateTick f.1 f.2 d)

/-- Possible outcomes of the route request issued by `fetchPatrolRoute`
(EmbeddedMap.tsx lines 405-445): the Mapbox token may be absent, the fetch
may throw (caught by the `try`/`catch`), or a response arrives carrying a
list of route coordinate lists. -/
inductive FetchOutcome where
  | missingToken : FetchOutcome
  | requestError : FetchOutcome
  | response : List (List (ℝ × ℝ)) → FetchOutcome

/-- Embeds the result of `fetchPatrolRoute`: `null` without a token, `null`
when the request throws, the first route's coordinates when
`data.routes && data.routes[0]` holds, and `null` otherwise. -/
def fetchPatrolRoute : FetchOutcome → Option (List (ℝ × ℝ))
  | .missingToken => none
  | .requestError => none
  | .response routes => routes.head?

/-- Embeds the waypoint sequence that `fetchPatrolRoute` puts in its
Directions request: `start;waypoint1;waypoint2;start`, where each waypoint
is offset from `start` by `distance = 0.002` degrees at a random angle. -/
noncomputable def patrolWaypoints (start : ℝ × ℝ) (angle1 angle2 : ℝ) :
    List (ℝ × ℝ) :=
  let distance : ℝ := 0.002
  let waypoint1 : ℝ × ℝ :=
    (start.1 + Real.cos angle1 * distance, start.2 + Real.sin angle1 * distance)
  let waypoint2 : ℝ × ℝ :=
    (start.1 + Real.cos angle2 * distance, start.2 + Real.sin angle2 * distance)
  [start, waypoint1, waypoint2, start]

/-- Clamped elapsed-time fraction of the current segment:
`Math.min(elapsed / estimatedDuration, 1)` with `estimatedDuration = 15000`. -/
noncomputable def movingProgress (now : ℝ) (d : OfficerData) : ℝ :=
  min ((now - d.segmentStartTime) / 15000) 1

/-- Interpolation factor applied to the offset toward the waypoint:
`ratio = Math.min(adjustedSpeed / distance, 1)` with
`adjustedSpeed = baseSpeed * speedMultiplier`. -/
noncomputable def movingRatio (now : ℝ) (d : OfficerData) : ℝ :=
  min (0.0000015 * speedMultiplier (easeInOutCubic (movingProgress now d)) /
    distToTarget d) 1

/-- Officer state about to travel due south: at the origin with the single
route waypoint one degree below it. -/
def southboundOfficer : OfficerData where
  current := (0, 0)
  route := [(0, -1)]
  routeIndex := 0
  heading := 0
  waitingUntil := none
  segmentProgress := 0
  segmentStartTime := 0

/-- Officer state about to travel due east: at the origin with the single
route waypoint one degree to its right. -/
def eastboundOfficer : OfficerData where
  current := (0, 0)
  route := [(1, 0)]
  routeIndex := 0
  heading := 0
  waitingUntil := none
  segmentProgress := 0
  segmentStartTime := 0

/-- Officer state waiting at a waypoint until time 5000. -/
def waitingOfficer : OfficerData where
  current := (0, 0)
  route := [(1, 0)]
  routeIndex := 0
  heading := 0
  waitingUntil := some 5000
  segmentProgress := 0
  segmentStartTime := 0

/-- Officer state that has arrived at its only waypoint. -/
def arrivedOfficer : OfficerData where
  current := (0, 0)
  route := [(0, 0)]
  routeIndex := 0
  heading := 0
  waitingUntil := none
  segmentProgress := 0
  segmentStartTime := 0

/-- Officer state with no route yet. -/
def stationaryOfficer : OfficerData where
  current := (-84.388, 33.749)
  route := []
  routeIndex := 0
  heading := 90
  waitingUntil := none
  segmentProgress := 0
  segmentStartTime := 0

/-- Modelled from the spec: the `PositionRecord` fields the proximity query
and the sync cycle need (`get_nearby_cars` and the sync service live in
`backend/redis/redis_client.py` and `backend/redis/location_sync.py`, which
are not under src; only documentation references them). -/
structure PosRecord where
  unit_id : String
  lat : ℝ
  lng : ℝ

/-- Modelled from the spec: the haversine great-circle distance in km for
two points given in radians, `a = sin^2(dlat/2) + cos lat1 * cos lat2 *
sin^2(dlng/2)`, `distance = 2 * R * atan2(sqrt a, sqrt (1-a))`, `R = 6371`. -/
noncomputable def haversineKm (lat1 lng1 lat2 lng2 : ℝ) : ℝ :=
  let dlat := lat2 - lat1
  let dlng := lng2 - lng1
  let a := Real.sin (dlat / 2) ^ 2 +
    Real.cos lat1 * Real.cos lat2 * Real.sin (dlng / 2) ^ 2
  2 * 6371 * atan2 (Real.sqrt a) (Real.sqrt (1 - a))

/-- Modelled from the spec: distance in km between two points given in
degrees, by converting to radians and applying the haversine formula. -/
noncomputable def distanceKm (lat1 lng1 lat2 lng2 : ℝ) : ℝ :=
  haversineKm (lat1 * Real.pi / 180) (lng1 * Real.pi / 180)
    (lat2 * Real.pi / 180) (lng2 * Real.pi / 180)

/-- Modelled from the spec: the ordering of proximity results, ascending by
`distance_km` (the second component of each result pair). -/
def distLE (a b : PosRecord × ℝ) : Prop := a.2 ≤ b.2

noncomputable instance : DecidableRel distLE := fun a b => Real.decidableLE a.2 b.2

instance : IsTotal (PosRecord × ℝ) distLE := ⟨fun a b => le_total a.2 b.2⟩

instance : IsTrans (PosRecord × ℝ) distLE :=
  ⟨fun _ _ _ hab hbc => le_trans hab hbc⟩

/-- Modelled from the spec: `query(center_lat, center_lng, radius_km)` over a
snapshot of position records: pair each record with its distance from the
center, keep those within the radius (inclusive), and sort ascending by
distance. -/
noncomputable def query (center_lat center_lng radius_km : ℝ)
    (snapshot : List PosRecord) : List (PosRecord × ℝ) :=
  List.insertionSort distLE
    ((snapshot.map
        (fun r => (r, distanceKm center_lat center_lng r.lat r.lng))).filter
      (fun p => decide (p.2 ≤ radius_km)))

/-- Modelled from the spec: the process-wide `SyncCheckpoint` counters,
mutated only by the Sync Service. -/
@[ext]
structure SyncCheckpoint where
  total_sync_cycles : ℕ
  successful_upserts : ℕ
  failed_upserts : ℕ
  last_cycle_at : ℕ

/-- Modelled from the spec: one record's independent upsert attempt inside a
sync cycle; the outcome increments `successful_upserts` or `failed_upserts`
and nothing else. `upsertOk` is the durable store's per-record outcome. -/
def processRecord (upsertOk : PosRecord → Bool) (cp : SyncCheckpoint)
    (r : PosRecord) : SyncCheckpoint :=
  if upsertOk r then
    { cp with successful_upserts := cp.successful_upserts + 1 }
  else
    { cp with failed_upserts := cp.failed_upserts + 1 }

/-- Modelled from the spec: one sync cycle: attempt every snapshotted record
independently, then update `last_cycle_at` and increment `total_sync_cycles`
exactly once, regardless of the per-record outcomes. -/
def runSyncCycle (upsertOk : PosRecord → Bool) (snapshot : List PosRecord)
    (now : ℕ) (cp : SyncCheckpoint) : SyncCheckpoint :=
  let folded := snapshot.foldl (processRecord upsertOk) cp
  { folded with
    total_sync_cycles := folded.total_sync_cycles + 1
    last_cycle_at := now }

theorem easeInOutCubic_zero : easeInOutCubic 0 = 0 := by
  norm_num [easeInOutCubic]

theorem easeInOutCubic_one : easeInOutCubic 1 = 1 := by
  norm_num [easeInOutCubic]

theorem easeInOutCubic_half : easeInOutCubic (1 / 2) = 1 / 2 := by
  norm_num [easeInOutCubic]

theorem easeInOutCubic_nonneg {t : ℝ} (h0 : 0 ≤ t) : 0 ≤ easeInOutCubic t := by
  unfold easeInOutCubic
  split_ifs with h
  · positivity
  · nlinarith [sq_nonneg (-2 * t + 2 + 1 / 2), sq_nonneg (-2 * t + 2),
      sq_nonneg (-2 * t + 2 - 1)]

theorem easeInOutCubic_le_one {t : ℝ} (h1 : t ≤ 1) : easeInOutCubic t ≤ 1 := by
  unfold easeInOutCubic
  split_ifs with h
  · nlinarith [sq_nonneg (t + 1 / 4), sq_nonneg t, sq_nonneg (t - 1 / 2),
      sq_nonneg (t + 1 / 2)]
  · nlinarith [sq_nonneg (-2 * t + 2)]

theorem easeInOutCubic_mono {t s : ℝ} (h0 : 0 ≤ t) (hts : t ≤ s) (h1 : s ≤ 1) :
    easeInOutCubic t ≤ easeInOutCubic s := by
  unfold easeInOutCubic
  split_ifs with ht hs hs
  · nlinarith [sq_nonneg (s + t), sq_nonneg (s - t), mul_nonneg h0 (h0.trans hts)]
  · nlinarith [sq_nonneg (t + 1 / 4), sq_nonneg (-2 * s + 2 + 1 / 2),
      sq_nonneg (-2 * s + 2 - 1), sq_nonneg (t - 1 / 2)]
  · linarith
  · nlinarith [sq_nonneg ((-2 * t + 2) + (-2 * s + 2)),
      sq_nonneg ((-2 * t + 2) - (-2 * s + 2)),
      mul_nonneg (by linarith : (0:ℝ) ≤ -2 * s + 2) (by linarith : (0:ℝ) ≤ -2 * t + 2)]

theorem easeInOutCubic_symm (t : ℝ) :
    easeInOutCubic t + easeInOutCubic (1 - t) = 1 := by
  unfold easeInOutCubic
  split_ifs with h h2 h3
  · linarith
  · ring
  · ring
  · have ht : t = 1 / 2 := by linarith
    subst ht; norm_num

theorem speedMultiplier_ge_one {e : ℝ} (h0 : 0 ≤ e) (h1 : e ≤ 1) :
    1 ≤ speedMultiplier e := by
  have hs0 : 0 ≤ Real.sin (e * Real.pi) :=
    Real.sin_nonneg_of_nonneg_of_le_pi (by positivity)
      (by nlinarith [Real.pi_pos])
  unfold speedMultiplier; linarith

theorem speedMultiplier_le_three (e : ℝ) : speedMultiplier e ≤ 3 := by
  have hs1 : Real.sin (e * Real.pi) ≤ 1 := Real.sin_le_one _
  unfold speedMultiplier; linarith

theorem speedMultiplier_ease_zero : speedMultiplier (easeInOutCubic 0) = 1 := by
  rw [easeInOutCubic_zero]
  unfold speedMultiplier
  rw [zero_mul, Real.sin_zero]; ring

theorem speedMultiplier_ease_one : speedMultiplier (easeInOutCubic 1) = 1 := by
  rw [easeInOutCubic_one]
  unfold speedMultiplier
  rw [one_mul, Real.sin_pi]; ring

theorem speedMultiplier_ease_half :
    speedMultiplier (easeInOutCubic (1 / 2)) = 3 := by
  rw [easeInOutCubic_half]
  unfold speedMultiplier
  rw [show (1 / 2 : ℝ) * Real.pi = Real.pi / 2 by ring, Real.sin_pi_div_two]
  ring

/-- C10: the easing function `easeInOutCubic` satisfies `ease 0 = 0`,
`ease 1 = 1`, `ease (1/2) = 1/2`, is monotonically nondecreasing on `[0,1]`,
and is point-symmetric about the midpoint: `ease t + ease (1-t) = 1` for
every `t` in `[0,1]`. -/
theorem C10_easeInOutCubic_shape :
    easeInOutCubic 0 = 0 ∧ easeInOutCubic 1 = 1 ∧
    easeInOutCubic (1 / 2) = 1 / 2 ∧
    (∀ t s : ℝ, 0 ≤ t → t ≤ s → s ≤ 1 → easeInOutCubic t ≤ easeInOutCubic s) ∧
    (∀ t : ℝ, 0 ≤ t → t ≤ 1 →
      easeInOutCubic t + easeInOutCubic (1 - t) = 1) :=
  ⟨easeInOutCubic_zero, easeInOutCubic_one, easeInOutCubic_half,
   fun _ _ h0 hts h1 => easeInOutCubic_mono h0 hts h1,
   fun t _ _ => easeInOutCubic_symm t⟩

/-- Witness for C10: the monotonicity part at `t = 0`, `s = 1` and the
symmetry part at `t = 1/4`, with the side conditions discharged. -/
theorem C10_easeInOutCubic_shape_witness :
    ((0:ℝ) ≤ 0 ∧ (0:ℝ) ≤ 1 ∧ (1:ℝ) ≤ 1 ∧
      easeInOutCubic 0 ≤ easeInOutCubic 1) ∧
    ((0:ℝ) ≤ 1 / 4 ∧ (1 / 4 : ℝ) ≤ 1 ∧
      easeInOutCubic (1 / 4) + easeInOutCubic (1 - 1 / 4) = 1) :=
  ⟨⟨le_refl 0, by norm_num, le_refl 1,
    C10_easeInOutCubic_shape.2.2.2.1 0 1 (by norm_num) (by norm_num)
      (by norm_num)⟩,
   ⟨by norm_num, by norm_num,
    C10_easeInOutCubic_shape.2.2.2.2 (1 / 4) (by norm_num) (by norm_num)⟩⟩

theorem animateTick_noRoute {d : OfficerData} (h : d.route = [])
    (now rand : ℝ) : animateTick now rand d = d := by
  unfold animateTick
  rw [if_pos h]

theorem animateTick_stillWaiting {d : OfficerData} {w now : ℝ} (rand : ℝ)
    (hroute : d.route ≠ []) (hw : d.waitingUntil = some w) (hnow : now < w) :
    animateTick now rand d = d := by
  simp only [animateTick, hw, if_neg hroute, if_pos hnow]

theorem animateTick_waitExpired {d : OfficerData} {w now : ℝ} (rand : ℝ)
    (hroute : d.route ≠ []) (hw : d.waitingUntil = some w) (hnow : ¬ now < w) :
    animateTick now rand d =
      moveStep now rand
        { d with waitingUntil := none, segmentProgress := 0,
                 segmentStartTime := now } := by
  simp only [animateTick, hw, if_neg hroute, if_neg hnow]

theorem animateTick_notWaiting {d : OfficerData} (now rand : ℝ)
    (hroute : d.route ≠ []) (hwait : d.waitingUntil = none) :
    animateTick now rand d = moveStep now rand d := by
  simp only [animateTick, hwait, if_neg hroute]

theorem moveStep_moving {d : OfficerData} (now rand : ℝ)
    (hdist : 0.000005 < distToTarget d) :
    moveStep now rand d =
      { d with
        current := (d.current.1 + dxOf d * movingRatio now d,
                    d.current.2 + dyOf d * movingRatio now d)
        heading := atan2 (dyOf d) (dxOf d) * 180 / Real.pi
        segmentProgress := movingProgress now d } := by
  have hd : (0.000005 : ℝ) < Real.sqrt (dxOf d * dxOf d + dyOf d * dyOf d) :=
    hdist
  unfold moveStep
  rw [if_pos hd]
  rfl

theorem moveStep_arrived {d : OfficerData} (now rand : ℝ)
    (hdist : ¬ 0.000005 < distToTarget d) :
    moveStep now rand d =
      { d with
        waitingUntil := some (now + 2000 + rand * 1000)
        routeIndex :=
          if d.route.length ≤ d.routeIndex + 1 then 0
          else d.routeIndex + 1 } := by
  have hd : ¬ (0.000005 : ℝ) < Real.sqrt (dxOf d * dxOf d + dyOf d * dyOf d) :=
    hdist
  unfold moveStep
  rw [if_neg hd]

theorem atan2_neg_one_zero : atan2 (-1) 0 = -(Real.pi / 2) := by
  unfold atan2
  norm_num

/-- C1: the claim says every emitted heading lies in `[0, 360)`; the code
instead stores `Math.atan2(dy, dx) * 180 / Math.PI`, which is negative for
any southward travel. An officer one moving tick into a due-south segment
carries heading `-90`, outside `[0, 360)`, contradicting the declared range
of the `heading` field (`direction in degrees (0-360)`). -/
theorem C1_heading_escapes_declared_range :
    (animateTick 1000 0 southboundOfficer).heading = -90 ∧
    ¬ (0 ≤ (animateTick 1000 0 southboundOfficer).heading ∧
        (animateTick 1000 0 southboundOfficer).heading < 360) := by
  have hroute : southboundOfficer.route ≠ [] := by
    simp [southboundOfficer]
  have hwait : southboundOfficer.waitingUntil = none := rfl
  have hdx : dxOf southboundOfficer = 0 := by
    simp [dxOf, targetOf, southboundOfficer]
  have hdy : dyOf southboundOfficer = -1 := by
    simp [dyOf, targetOf, southboundOfficer]
  have hdist : (0.000005 : ℝ) < distToTarget southboundOfficer := by
    unfold distToTarget
    rw [hdx, hdy]
    norm_num
  have hstep :
      (animateTick 1000 0 southboundOfficer).heading =
        atan2 (dyOf southboundOfficer) (dxOf southboundOfficer) * 180 /
          Real.pi := by
    rw [animateTick_notWaiting 1000 0 hroute hwait, moveStep_moving 1000 0 hdist]
  have hval : (animateTick 1000 0 southboundOfficer).heading = -90 := by
    rw [hstep, hdx, hdy, atan2_neg_one_zero]
    field_simp
    ring
  refine ⟨hval, ?_⟩
  rw [hval]
  intro h
  linarith [h.1]

theorem movingProgress_nonneg {now : ℝ} {d : OfficerData}
    (hnow : d.segmentStartTime ≤ now) : 0 ≤ movingProgress now d := by
  unfold movingProgress
  have h1 : (0:ℝ) ≤ (now - d.segmentStartTime) / 15000 := by
    apply div_nonneg <;> linarith
  exact le_min h1 zero_le_one

theorem movingProgress_le_one (now : ℝ) (d : OfficerData) :
    movingProgress now d ≤ 1 :=
  min_le_right _ _

theorem speedMultiplier_of_progress_ge_one {now : ℝ} {d : OfficerData}
    (hnow : d.segmentStartTime ≤ now) :
    1 ≤ speedMultiplier (easeInOutCubic (movingProgress now d)) :=
  speedMultiplier_ge_one (easeInOutCubic_nonneg (movingProgress_nonneg hnow))
    (easeInOutCubic_le_one (movingProgress_le_one now d))

theorem movingRatio_nonneg {now : ℝ} {d : OfficerData}
    (hnow : d.segmentStartTime ≤ now) (hdist : 0 < distToTarget d) :
    0 ≤ movingRatio now d := by
  unfold movingRatio
  refine le_min (div_nonneg ?_ hdist.le) zero_le_one
  have h1 := speedMultiplier_of_progress_ge_one hnow
  nlinarith

theorem movingRatio_le_one (now : ℝ) (d : OfficerData) :
    movingRatio now d ≤ 1 :=
  min_le_right _ _

/-- C2: on a moving tick the new position is the previous position advanced
toward the active waypoint by the ratio `min(adjustedSpeed / distance, 1)`,
where the adjusted speed is the base speed `0.0000015` scaled by the eased
profile `1 + 2 sin(pi * easeInOutCubic(progress))` of the clamped
elapsed-time fraction; the multiplier is `1` at progress `0` and `1`, `3` at
progress `1/2`, always within `[1, 3]`, and the heading is updated from the
direction of travel. -/
theorem C2_moving_tick (now rand : ℝ) (d : OfficerData)
    (hroute : d.route ≠ []) (hwait : d.waitingUntil = none)
    (hdist : 0.000005 < distToTarget d) (hnow : d.segmentStartTime ≤ now) :
    (animateTick now rand d).current =
      (d.current.1 + dxOf d * movingRatio now d,
       d.current.2 + dyOf d * movingRatio now d) ∧
    movingRatio now d =
      min (0.0000015 *
        speedMultiplier (easeInOutCubic (movingProgress now d)) /
        distToTarget d) 1 ∧
    0 ≤ movingRatio now d ∧ movingRatio now d ≤ 1 ∧
    (∀ e : ℝ, speedMultiplier e = 1 + 2 * Real.sin (Real.pi * e)) ∧
    1 ≤ speedMultiplier (easeInOutCubic (movingProgress now d)) ∧
    speedMultiplier (easeInOutCubic (movingProgress now d)) ≤ 3 ∧
    speedMultiplier (easeInOutCubic 0) = 1 ∧
    speedMultiplier (easeInOutCubic 1) = 1 ∧
    speedMultiplier (easeInOutCubic (1 / 2)) = 3 ∧
    (animateTick now rand d).heading =
      atan2 (dyOf d) (dxOf d) * 180 / Real.pi := by
  have hstep :=
    (animateTick_notWaiting now rand hroute hwait).trans
      (moveStep_moving now rand hdist)
  have hpos : (0:ℝ) < distToTarget d := lt_trans (by norm_num) hdist
  refine ⟨by rw [hstep], rfl, movingRatio_nonneg hnow hpos,
    movingRatio_le_one now d, ?_, speedMultiplier_of_progress_ge_one hnow,
    speedMultiplier_le_three _, speedMultiplier_ease_zero,
    speedMultiplier_ease_one, speedMultiplier_ease_half, by rw [hstep]⟩
  intro e
  unfold speedMultiplier
  rw [mul_comm e Real.pi]
  ring

/-- Witness for C2: the eastbound officer, one tick at time 0, moves along
the segment toward `(1, 0)` and its heading is set from the direction of
travel; all hypotheses hold at this input. -/
theorem C2_moving_tick_witness :
    eastboundOfficer.route ≠ [] ∧
    eastboundOfficer.waitingUntil = none ∧
    (0.000005 : ℝ) < distToTarget eastboundOfficer ∧
    eastboundOfficer.segmentStartTime ≤ (0:ℝ) ∧
    (animateTick 0 0 eastboundOfficer).current =
      (eastboundOfficer.current.1 +
        dxOf eastboundOfficer * movingRatio 0 eastboundOfficer,
       eastboundOfficer.current.2 +
        dyOf eastboundOfficer * movingRatio 0 eastboundOfficer) ∧
    (animateTick 0 0 eastboundOfficer).heading =
      atan2 (dyOf eastboundOfficer) (dxOf eastboundOfficer) * 180 /
        Real.pi := by
  have hroute : eastboundOfficer.route ≠ [] := by simp [eastboundOfficer]
  have hwait : eastboundOfficer.waitingUntil = none := rfl
  have hdx : dxOf eastboundOfficer = 1 := by
    simp [dxOf, targetOf, eastboundOfficer]
  have hdy : dyOf eastboundOfficer = 0 := by
    simp [dyOf, targetOf, eastboundOfficer]
  have hdist : (0.000005 : ℝ) < distToTarget eastboundOfficer := by
    unfold distToTarget
    rw [hdx, hdy]
    norm_num
  have hnow : eastboundOfficer.segmentStartTime ≤ (0:ℝ) := by
    simp [eastboundOfficer]
  have h := C2_moving_tick 0 0 eastboundOfficer hroute hwait hdist hnow
  exact ⟨hroute, hwait, hdist, hnow, h.1, h.2.2.2.2.2.2.2.2.2.2⟩

/-- C3: a tick of a waiting officer whose deadline has not elapsed leaves
the whole state (position, heading, waypoint index) unchanged and re-emits
the current position; the first tick at or after the deadline clears the
wait, resets segment progress, restamps the segment start, and runs the
moving logic. -/
theorem C3_waiting_tick (now rand w : ℝ) (d : OfficerData)
    (hroute : d.route ≠ []) (hw : d.waitingUntil = some w) :
    (now < w → animateTick now rand d = d) ∧
    (w ≤ now →
      animateTick now rand d =
        moveStep now rand
          { d with waitingUntil := none, segmentProgress := 0,
                   segmentStartTime := now }) :=
  ⟨fun hnow => animateTick_stillWaiting rand hroute hw hnow,
   fun hnow => animateTick_waitExpired rand hroute hw (not_lt.2 hnow)⟩

/-- Witness for C3: the waiting officer at time 1000, before its deadline
5000, is exactly unchanged by a tick. -/
theorem C3_waiting_tick_witness :
    waitingOfficer.route ≠ [] ∧
    waitingOfficer.waitingUntil = some 5000 ∧
    (1000 : ℝ) < 5000 ∧
    animateTick 1000 0 waitingOfficer = waitingOfficer := by
  have hroute : waitingOfficer.route ≠ [] := by simp [waitingOfficer]
  have hw : waitingOfficer.waitingUntil = some 5000 := rfl
  exact ⟨hroute, hw, by norm_num,
    (C3_waiting_tick 1000 0 5000 waitingOfficer hroute hw).1 (by norm_num)⟩

/-- C4: when a moving officer is within `0.000005` of its active waypoint, a
tick leaves the position in place, starts a wait of `2000 + rand * 1000`
milliseconds — between 2 seconds (inclusive) and 3 seconds (exclusive) for
`rand` in `[0, 1)` — and advances the waypoint index, wrapping to 0 when
the incremented index reaches the route length. -/
theorem C4_waypoint_arrival (now rand : ℝ) (d : OfficerData)
    (hroute : d.route ≠ []) (hwait : d.waitingUntil = none)
    (hdist : distToTarget d ≤ 0.000005) (hr0 : 0 ≤ rand) (hr1 : rand < 1) :
    (animateTick now rand d).waitingUntil =
      some (now + 2000 + rand * 1000) ∧
    now + 2000 ≤ now + 2000 + rand * 1000 ∧
    now + 2000 + rand * 1000 < now + 3000 ∧
    (animateTick now rand d).current = d.current ∧
    (d.routeIndex + 1 < d.route.length →
      (animateTick now rand d).routeIndex = d.routeIndex + 1) ∧
    (d.route.length ≤ d.routeIndex + 1 →
      (animateTick now rand d).routeIndex = 0) := by
  have hstep :=
    (animateTick_notWaiting now rand hroute hwait).trans
      (moveStep_arrived now rand (not_lt.2 hdist))
  rw [hstep]
  refine ⟨rfl, by linarith, by linarith, rfl, ?_, ?_⟩
  · intro h
    simp only []
    rw [if_neg (not_le.2 h)]
  · intro h
    simp only []
    rw [if_pos h]

/-- Witness for C4: the arrived officer, ticked at time 1000 with random
sample 1/2, starts a wait until 3500 and wraps its waypoint index to 0. -/
theorem C4_waypoint_arrival_witness :
    arrivedOfficer.route ≠ [] ∧
    arrivedOfficer.waitingUntil = none ∧
    distToTarget arrivedOfficer ≤ 0.000005 ∧
    (0 : ℝ) ≤ 1 / 2 ∧ (1 / 2 : ℝ) < 1 ∧
    (animateTick 1000 (1 / 2) arrivedOfficer).waitingUntil =
      some (1000 + 2000 + 1 / 2 * 1000) ∧
    (animateTick 1000 (1 / 2) arrivedOfficer).routeIndex = 0 := by
  have hroute : arrivedOfficer.route ≠ [] := by simp [arrivedOfficer]
  have hwait : arrivedOfficer.waitingUntil = none := rfl
  have hdx : dxOf arrivedOfficer = 0 := by
    simp [dxOf, targetOf, arrivedOfficer]
  have hdy : dyOf arrivedOfficer = 0 := by
    simp [dyOf, targetOf, arrivedOfficer]
  have hdist : distToTarget arrivedOfficer ≤ 0.000005 := by
    unfold distToTarget
    rw [hdx, hdy]
    norm_num
  have h := C4_waypoint_arrival 1000 (1 / 2) arrivedOfficer hroute hwait hdist
    (by norm_num) (by norm_num)
  refine ⟨hroute, hwait, hdist, by norm_num, by norm_num, h.1, ?_⟩
  exact h.2.2.2.2.2 (by simp [arrivedOfficer])

/-- C5: route acquisition yields `null` (never an exception) when the token
is missing, the request errors out, or the response has no routes; and an
officer with no route is left exactly in place by every sequence of ticks,
so the simulator keeps emitting the starting position. -/
theorem C5_route_failure_degrades_to_stationary :
    fetchPatrolRoute .missingToken = none ∧
    fetchPatrolRoute .requestError = none ∧
    fetchPatrolRoute (.response []) = none ∧
    ∀ d : OfficerData, d.route = [] → ∀ frames : List (ℝ × ℝ),
      runTicks frames d = d := by
  refine ⟨rfl, rfl, rfl, fun d hd frames => ?_⟩
  induction frames with
  | nil => rfl
  | cons f fs ih =>
    show runTicks fs (animateTick f.1 f.2 d) = d
    rw [animateTick_noRoute hd]
    exact ih

/-- Witness for C5: the routeless officer is unchanged across two concrete
frames. -/
theorem C5_route_failure_witness :
    stationaryOfficer.route = [] ∧
    runTicks [(1000, 0), (2000, 1 / 2)] stationaryOfficer =
      stationaryOfficer :=
  ⟨rfl,
   C5_route_failure_degrades_to_stationary.2.2.2 stationaryOfficer rfl
     [(1000, 0), (2000, 1 / 2)]⟩

/-- C9: on a moving tick the interpolation factor is `min(adjustedSpeed /
distance, 1)`, which lies in `[0, 1]`, so the new position stays on the
closed segment between the old position and the active waypoint, and the
distance to the waypoint shrinks by exactly the factor `1 - ratio`, hence
never increases. -/
theorem C9_never_overshoots (now rand : ℝ) (d : OfficerData)
    (hroute : d.route ≠ []) (hwait : d.waitingUntil = none)
    (hdist : 0.000005 < distToTarget d) (hnow : d.segmentStartTime ≤ now) :
    0 ≤ movingRatio now d ∧ movingRatio now d ≤ 1 ∧
    (animateTick now rand d).current =
      (d.current.1 + dxOf d * movingRatio now d,
       d.current.2 + dyOf d * movingRatio now d) ∧
    distToTarget (animateTick now rand d) =
      (1 - movingRatio now d) * distToTarget d ∧
    distToTarget (animateTick now rand d) ≤ distToTarget d := by
  have hstep :=
    (animateTick_notWaiting now rand hroute hwait).trans
      (moveStep_moving now rand hdist)
  have hpos : (0:ℝ) < distToTarget d := lt_trans (by norm_num) hdist
  have hr0 : 0 ≤ movingRatio now d := movingRatio_nonneg hnow hpos
  have hr1 : movingRatio now d ≤ 1 := movingRatio_le_one now d
  have hdx : dxOf (animateTick now rand d) =
      dxOf d * (1 - movingRatio now d) := by
    rw [hstep]
    unfold dxOf targetOf
    simp only []
    ring
  have hdy : dyOf (animateTick now rand d) =
      dyOf d * (1 - movingRatio now d) := by
    rw [hstep]
    unfold dyOf targetOf
    simp only []
    ring
  have hsq : dxOf d * (1 - movingRatio now d) *
        (dxOf d * (1 - movingRatio now d)) +
      dyOf d * (1 - movingRatio now d) *
        (dyOf d * (1 - movingRatio now d)) =
      (1 - movingRatio now d) ^ 2 * (dxOf d * dxOf d + dyOf d * dyOf d) := by
    ring
  have hdist2 : distToTarget (animateTick now rand d) =
      (1 - movingRatio now d) * distToTarget d := by
    unfold distToTarget
    rw [hdx, hdy, hsq, Real.sqrt_mul (sq_nonneg _),
      Real.sqrt_sq (by linarith)]
  refine ⟨hr0, hr1, by rw [hstep], hdist2, ?_⟩
  rw [hdist2]
  nlinarith

/-- Witness for C9: the eastbound officer at time 0; its distance to the
waypoint does not increase across the tick. -/
theorem C9_never_overshoots_witness :
    eastboundOfficer.route ≠ [] ∧
    eastboundOfficer.waitingUntil = none ∧
    (0.000005 : ℝ) < distToTarget eastboundOfficer ∧
    eastboundOfficer.segmentStartTime ≤ (0:ℝ) ∧
    distToTarget (animateTick 0 0 eastboundOfficer) ≤
      distToTarget eastboundOfficer := by
  have hroute : eastboundOfficer.route ≠ [] := by simp [eastboundOfficer]
  have hwait : eastboundOfficer.waitingUntil = none := rfl
  have hdx : dxOf eastboundOfficer = 1 := by
    simp [dxOf, targetOf, eastboundOfficer]
  have hdy : dyOf eastboundOfficer = 0 := by
    simp [dyOf, targetOf, eastboundOfficer]
  have hdist : (0.000005 : ℝ) < distToTarget eastboundOfficer := by
    unfold distToTarget
    rw [hdx, hdy]
    norm_num
  have hnow : eastboundOfficer.segmentStartTime ≤ (0:ℝ) := by
    simp [eastboundOfficer]
  exact ⟨hroute, hwait, hdist, hnow,
    (C9_never_overshoots 0 0 eastboundOfficer hroute hwait hdist
      hnow).2.2.2.2⟩

theorem atan2_zero_one : atan2 0 1 = 0 := by
  unfold atan2
  rw [if_pos one_pos]
  norm_num [Real.arctan_zero]

theorem haversineKm_self (lat lng : ℝ) : haversineKm lat lng lat lng = 0 := by
  unfold haversineKm
  simp only [sub_self, zero_div, Real.sin_zero, mul_zero, add_zero, zero_add,
    sub_zero]
  norm_num [Real.sqrt_zero, Real.sqrt_one, atan2_zero_one]

theorem distanceKm_self (lat lng : ℝ) : distanceKm lat lng lat lng = 0 :=
  haversineKm_self _ _

/-- C6: over any snapshot, the proximity query returns exactly the records
whose haversine distance from the center is at most the radius (inclusive
filter), each paired with that distance, sorted ascending by distance; and
the distance from a point to itself is 0. -/
theorem C6_proximity_query (center_lat center_lng radius_km : ℝ)
    (snapshot : List PosRecord) :
    List.Sorted distLE (query center_lat center_lng radius_km snapshot) ∧
    (∀ (r : PosRecord) (dk : ℝ),
      (r, dk) ∈ query center_lat center_lng radius_km snapshot ↔
        r ∈ snapshot ∧
        dk = distanceKm center_lat center_lng r.lat r.lng ∧
        dk ≤ radius_km) ∧
    (∀ lat lng : ℝ, distanceKm lat lng lat lng = 0) := by
  refine ⟨List.sorted_insertionSort distLE _, ?_,
    fun lat lng => distanceKm_self lat lng⟩
  intro r dk
  unfold query
  rw [List.mem_insertionSort, List.mem_filter]
  simp only [List.mem_map, decide_eq_true_eq]
  constructor
  · rintro ⟨⟨s, hs, heq⟩, hle⟩
    rw [Prod.mk.injEq] at heq
    obtain ⟨rfl, rfl⟩ := heq
    exact ⟨hs, rfl, hle⟩
  · rintro ⟨hr, rfl, hle⟩
    exact ⟨⟨r, hr, rfl⟩, hle⟩

/-- Witness for C6: the query parts at concrete arguments; in particular the
self-distance of a concrete point is 0. -/
theorem C6_proximity_query_witness :
    distanceKm 33.749 (-84.388) 33.749 (-84.388) = 0 :=
  (C6_proximity_query 0 0 0 []).2.2 33.749 (-84.388)

theorem foldl_processRecord_total (u : PosRecord → Bool)
    (s : List PosRecord) (cp : SyncCheckpoint) :
    (s.foldl (processRecord u) cp).total_sync_cycles =
      cp.total_sync_cycles := by
  induction s generalizing cp with
  | nil => rfl
  | cons r rs ih =>
    rw [List.foldl_cons, ih]
    unfold processRecord
    split_ifs <;> rfl

theorem foldl_processRecord_last (u : PosRecord → Bool)
    (s : List PosRecord) (cp : SyncCheckpoint) :
    (s.foldl (processRecord u) cp).last_cycle_at = cp.last_cycle_at := by
  induction s generalizing cp with
  | nil => rfl
  | cons r rs ih =>
    rw [List.foldl_cons, ih]
    unfold processRecord
    split_ifs <;> rfl

theorem foldl_processRecord_succ (u : PosRecord → Bool)
    (s : List PosRecord) (cp : SyncCheckpoint) :
    (s.foldl (processRecord u) cp).successful_upserts =
      cp.successful_upserts + s.countP u := by
  induction s generalizing cp with
  | nil => simp
  | cons r rs ih =>
    rw [List.foldl_cons, ih, List.countP_cons]
    cases hu : u r <;> simp [processRecord, hu] <;> omega

theorem foldl_processRecord_failed (u : PosRecord → Bool)
    (s : List PosRecord) (cp : SyncCheckpoint) :
    (s.foldl (processRecord u) cp).failed_upserts =
      cp.failed_upserts + s.countP (fun r => !(u r)) := by
  induction s generalizing cp with
  | nil => simp
  | cons r rs ih =>
    rw [List.foldl_cons, ih, List.countP_cons]
    cases hu : u r <;> simp [processRecord, hu] <;> omega

/-- C7: in a sync cycle every snapshotted record is attempted independently:
`successful_upserts` and `failed_upserts` grow by the per-record outcome
counts (so one record's failure never prevents another from being counted),
`total_sync_cycles` grows by exactly 1 and `last_cycle_at` is set once per
cycle regardless of outcomes; when every upsert fails, `failed_upserts`
grows by the number of records attempted while `total_sync_cycles` still
grows by 1, and a subsequent cycle proceeds normally. -/
theorem C7_sync_cycle_counters (u : PosRecord → Bool) (s : List PosRecord)
    (now : ℕ) (cp : SyncCheckpoint) :
    (runSyncCycle u s now cp).successful_upserts =
      cp.successful_upserts + s.countP u ∧
    (runSyncCycle u s now cp).failed_upserts =
      cp.failed_upserts + s.countP (fun r => !(u r)) ∧
    (runSyncCycle u s now cp).total_sync_cycles =
      cp.total_sync_cycles + 1 ∧
    (runSyncCycle u s now cp).last_cycle_at = now ∧
    ((∀ r ∈ s, u r = false) →
      (runSyncCycle u s now cp).failed_upserts =
        cp.failed_upserts + s.length ∧
      (runSyncCycle u s now cp).successful_upserts =
        cp.successful_upserts) ∧
    (∀ (u2 : PosRecord → Bool) (s2 : List PosRecord) (now2 : ℕ),
      (runSyncCycle u2 s2 now2 (runSyncCycle u s now cp)).total_sync_cycles =
        cp.total_sync_cycles + 2) := by
  have hsucc : (runSyncCycle u s now cp).successful_upserts =
      cp.successful_upserts + s.countP u := by
    unfold runSyncCycle
    exact foldl_processRecord_succ u s cp
  have hfail : (runSyncCycle u s now cp).failed_upserts =
      cp.failed_upserts + s.countP (fun r => !(u r)) := by
    unfold runSyncCycle
    exact foldl_processRecord_failed u s cp
  have htot : (runSyncCycle u s now cp).total_sync_cycles =
      cp.total_sync_cycles + 1 := by
    unfold runSyncCycle
    simp only []
    rw [foldl_processRecord_total]
  refine ⟨hsucc, hfail, htot, rfl, fun hall => ⟨?_, ?_⟩, fun u2 s2 now2 => ?_⟩
  · rw [hfail, List.countP_eq_length.2 ?_]
    intro a ha
    simp [hall a ha]
  · rw [hsucc]
    have : s.countP u = 0 := by
      rw [List.countP_eq_zero]
      intro a ha
      simp [hall a ha]
    omega
  · have h2 : (runSyncCycle u2 s2 now2
        (runSyncCycle u s now cp)).total_sync_cycles =
      (runSyncCycle u s now cp).total_sync_cycles + 1 := by
      unfold runSyncCycle
      simp only []
      rw [foldl_processRecord_total]
    rw [h2, htot]

/-- Witness for C7: a two-record snapshot in which every upsert fails:
`failed_upserts` grows by 2, `total_sync_cycles` by 1. -/
theorem C7_sync_cycle_counters_witness :
    (∀ r ∈ [PosRecord.mk "U1" 1 2, PosRecord.mk "U2" 3 4],
      (fun _ : PosRecord => false) r = false) ∧
    (runSyncCycle (fun _ => false) [PosRecord.mk "U1" 1 2, PosRecord.mk "U2" 3 4]
        5 (SyncCheckpoint.mk 0 0 0 0)).failed_upserts =
      0 + ([PosRecord.mk "U1" 1 2, PosRecord.mk "U2" 3 4] :
        List PosRecord).length ∧
    (runSyncCycle (fun _ => false) [PosRecord.mk "U1" 1 2, PosRecord.mk "U2" 3 4]
        5 (SyncCheckpoint.mk 0 0 0 0)).total_sync_cycles = 0 + 1 := by
  have hall : ∀ r ∈ [PosRecord.mk "U1" 1 2, PosRecord.mk "U2" 3 4],
      (fun _ : PosRecord => false) r = false := by
    intro r _
    rfl
  have h := C7_sync_cycle_counters (fun _ => false)
    [PosRecord.mk "U1" 1 2, PosRecord.mk "U2" 3 4] 5 (SyncCheckpoint.mk 0 0 0 0)
  exact ⟨hall, (h.2.2.2.2.1 hall).1, h.2.2.1⟩

theorem offset_norm_eq (c : ℝ × ℝ) (a : ℝ) :
    Real.sqrt ((c.1 + Real.cos a * 0.002 - c.1) ^ 2 +
      (c.2 + Real.sin a * 0.002 - c.2) ^ 2) = 0.002 := by
  have h : (c.1 + Real.cos a * 0.002 - c.1) ^ 2 +
      (c.2 + Real.sin a * 0.002 - c.2) ^ 2 = 0.002 ^ 2 := by
    have hsc := Real.sin_sq_add_cos_sq a
    nlinarith
  rw [h, Real.sqrt_sq (by norm_num)]

/-- C8: the waypoint sequence requested for a patrol route is
`[start, w1, w2, start]`: it begins and ends at the starting point (a closed
loop), and each intermediate waypoint lies exactly `0.002` degrees
(about 200 m) from the start. -/
theorem C8_patrol_route_closed_loop (start : ℝ × ℝ) (angle1 angle2 : ℝ) :
    ∃ w1 w2 : ℝ × ℝ,
      patrolWaypoints start angle1 angle2 = [start, w1, w2, start] ∧
      Real.sqrt ((w1.1 - start.1) ^ 2 + (w1.2 - start.2) ^ 2) = 0.002 ∧
      Real.sqrt ((w2.1 - start.1) ^ 2 + (w2.2 - start.2) ^ 2) = 0.002 := by
  refine ⟨(start.1 + Real.cos angle1 * 0.002,
           start.2 + Real.sin angle1 * 0.002),
          (start.1 + Real.cos angle2 * 0.002,
           start.2 + Real.sin angle2 * 0.002), rfl, ?_, ?_⟩
  · exact offset_norm_eq start angle1
  · exact offset_norm_eq start angle2

/-- Witness for C8: the patrol waypoints around the origin at angles 0 and
`pi / 2` form a closed loop of four points with both intermediate waypoints
0.002 degrees from the start. -/
theorem C8_patrol_route_closed_loop_witness :
    ∃ w1 w2 : ℝ × ℝ,
      patrolWaypoints (0, 0) 0 (Real.pi / 2) = [(0, 0), w1, w2, (0, 0)] ∧
      Real.sqrt ((w1.1 - (0:ℝ)) ^ 2 + (w1.2 - (0:ℝ)) ^ 2) = 0.002 ∧
      Real.sqrt ((w2.1 - (0:ℝ)) ^ 2 + (w2.2 - (0:ℝ)) ^ 2) = 0.002 :=
  C8_patrol_route_closed_loop (0, 0) 0 (Real.pi / 2)

end Vigilis
